import Mathlib

/-!
Verification of the TempoExpenseAI expense-approval frontend and of the
spec-level Decision Engine and Settlement Executor, as a shallow embedding
in Lean 4.  The React components under src/frontend/src/components are
translated handler by handler; JavaScript numbers are modelled as either
NaN or a rational value, and JavaScript string truthiness (only the empty
string is falsy) is made explicit.
-/

namespace TempoExpense

/-- A JavaScript number: either NaN or a rational value. -/
inductive JSNum where
| nan : JSNum
| num (q : ℚ) : JSNum
deriving DecidableEq

/-- JavaScript isNaN on a number. -/
def JSNum.isNaN : JSNum → Bool
| .nan => true
| .num _ => false

/-- JavaScript truthiness of a number: 0 and NaN are falsy, everything else truthy. -/
def JSNum.truthy : JSNum → Bool
| .nan => false
| .num q => decide (q ≠ 0)

/-- JavaScript comparison a <= b on numbers: any comparison involving NaN is false. -/
def JSNum.le : JSNum → JSNum → Bool
| .num a, .num b => decide (a ≤ b)
| .nan, _ => false
| .num _, .nan => false

/-- JavaScript truthiness of a string: only the empty string is falsy. -/
def strTruthy (s : String) : Bool := !s.isEmpty

/-- JavaScript String.prototype.trim, modelled over the character list:
leading and trailing whitespace removed. -/
def jsTrim (s : String) : String :=
⟨((s.data.dropWhile Char.isWhitespace).reverse.dropWhile Char.isWhitespace).reverse⟩

/-- Decimal digits folded into a natural number. -/
def digitsToNat (ds : List Char) : ℕ :=
ds.foldl (fun a c => 10 * a + (c.toNat - 48)) 0

/-- JavaScript parseFloat restricted to the decimal forms reachable from the
app's numeric inputs (optional sign, integer digits, optional fraction digits);
a string with no digits in that position parses to NaN, as parseFloat does. -/
def parseFloatJS (s : String) : JSNum :=
let signed : Bool × List Char :=
  match s.data with
  | '-' :: rest => (true, rest)
  | '+' :: rest => (false, rest)
  | cs => (false, cs)
let ip := signed.2.takeWhile Char.isDigit
let rest := signed.2.dropWhile Char.isDigit
let fp : List Char :=
  match rest with
  | '.' :: r => r.takeWhile Char.isDigit
  | _ => []
if ip.isEmpty && fp.isEmpty then JSNum.nan
else
  let q : ℚ := (digitsToNat ip : ℚ) + (digitsToNat fp : ℚ) / ((10 : ℚ) ^ fp.length)
  JSNum.num (if signed.1 then -q else q)

/-! ## ExpenseForm (src/frontend/src/components/ExpenseForm.jsx, src/unnamed/part_001) -/

/-- Outcome of ExpenseForm.handleSubmit: either a synchronous validation error
(the component sets a result error and returns, so no API call is made) or a
submission of the parsed amount to the backend via submitExpense. -/
inductive SubmitAction where
| invalidAmount (msg : String) : SubmitAction
| submit (amount : JSNum) : SubmitAction
deriving DecidableEq

/-- ExpenseForm.handleSubmit amount validation (ExpenseForm.jsx lines 90-96 and
src/unnamed/part_001 lines 135-141): the amount field is parsed with parseFloat
and rejected when the result is falsy, <= 0, or NaN, before submitExpense. -/
def handleSubmit (formAmount : String) : SubmitAction :=
let amount := parseFloatJS formAmount
if !amount.truthy || amount.le (JSNum.num 0) || amount.isNaN then
  SubmitAction.invalidAmount "Please enter a valid amount greater than 0"
else
  SubmitAction.submit amount

/-- The status card configuration returned by ExpenseForm's getStatusConfig. -/
structure FormStatusConfig where
  icon : String
  color : String
  bg : String
  label : String
  glow : String
deriving DecidableEq

/-- ExpenseForm.getStatusConfig (ExpenseForm.jsx lines 143-156 and
src/unnamed/part_001 lines 188-201): a switch over the status string with a
default Processing configuration. -/
def getStatusConfig (status : String) : FormStatusConfig :=
if status = "paid" ∨ status = "auto_approved" then
  ⟨"CheckCircle", "text-green-400", "bg-green-500/10 border-green-500/30", "✅ Auto-Approved & Paid on Tempo", "glow-green"⟩
else if status = "manager_review" then
  ⟨"AlertTriangle", "text-yellow-400", "bg-yellow-500/10 border-yellow-500/30", "⏳ Sent to Manager Review", "glow-yellow"⟩
else if status = "rejected" ∨ status = "flagged" then
  ⟨"XCircle", "text-red-400", "bg-red-500/10 border-red-500/30", "🚨 Flagged / Rejected", "glow-red"⟩
else
  ⟨"Bot", "text-blue-400", "bg-blue-500/10 border-blue-500/30", "Processing...", ""⟩

/-- The slice of the receipt-enabled ExpenseForm state touched by
handleReceiptSelect (src/unnamed/part_001). -/
structure ReceiptFormState where
  receipt_attached : Bool
  receipt_file_path : Option String
deriving DecidableEq

/-- Result of the uploadReceipt API call. -/
inductive UploadOutcome where
| ok (filepath : String) : UploadOutcome
| failed : UploadOutcome
deriving DecidableEq

/-- handleReceiptSelect (src/unnamed/part_001 lines 89-103): on a successful
upload the form records receipt_attached and the returned filepath; on a failed
upload the catch branch still marks receipt_attached true and leaves the
filepath untouched. -/
def handleReceiptSelect (f : ReceiptFormState) (res : UploadOutcome) : ReceiptFormState :=
match res with
| .ok fp => { f with receipt_attached := true, receipt_file_path := some fp }
| .failed => { f with receipt_attached := true }

/-! ## ExpenseList (src/frontend/src/components/ExpenseList.jsx) -/

/-- A JavaScript bracket lookup on an object literal: an own property holding
a config object, a truthy value found further up the prototype chain on
Object.prototype (a function, or for the __proto__ accessor the prototype
object itself — in either case a value with no icon / color / label
properties of its own), or undefined when the key is on neither the object
nor its prototype chain. -/
inductive JSLookup (α : Type) where
| config (c : α) : JSLookup α
| inherited : JSLookup α
| undef : JSLookup α
deriving DecidableEq

/-- The property keys every JavaScript object literal inherits from
Object.prototype; bracket lookup with any of these keys on the config objects
below yields a truthy non-config value instead of undefined. -/
def objectPrototypeKeys : List String :=
["constructor", "hasOwnProperty", "isPrototypeOf", "propertyIsEnumerable",
 "toLocaleString", "toString", "valueOf", "__proto__",
 "__defineGetter__", "__defineSetter__", "__lookupGetter__", "__lookupSetter__"]

/-- A config entry of ExpenseList's statusConfig object. -/
structure StatusConfig where
  icon : String
  color : String
  bg : String
  label : String
deriving DecidableEq

/-- The pending entry of ExpenseList's statusConfig object. -/
def pendingStatusConfig : StatusConfig :=
⟨"Clock", "text-slate-400", "bg-slate-500/10", "Pending"⟩

/-- ExpenseList's statusConfig object (ExpenseList.jsx lines 6-15) under
JavaScript bracket lookup: own keys first, then the keys inherited from
Object.prototype, and undefined only for keys on neither. -/
def statusConfigLookup (status : String) : JSLookup StatusConfig :=
if status = "paid" then JSLookup.config ⟨"CheckCircle", "text-green-400", "bg-green-500/10", "Paid"⟩
else if status = "auto_approved" then JSLookup.config ⟨"CheckCircle", "text-green-400", "bg-green-500/10", "Auto-Approved"⟩
else if status = "approved" then JSLookup.config ⟨"CheckCircle", "text-green-400", "bg-green-500/10", "Approved"⟩
else if status = "manager_review" then JSLookup.config ⟨"Clock", "text-yellow-400", "bg-yellow-500/10", "Review"⟩
else if status = "pending" then JSLookup.config pendingStatusConfig
else if status = "rejected" then JSLookup.config ⟨"XCircle", "text-red-400", "bg-red-500/10", "Rejected"⟩
else if status = "flagged" then JSLookup.config ⟨"AlertTriangle", "text-red-400", "bg-red-500/10", "Flagged"⟩
else if status = "disputed" then JSLookup.config ⟨"MessageSquare", "text-orange-400", "bg-orange-500/10", "Disputed"⟩
else if status ∈ objectPrototypeKeys then JSLookup.inherited
else JSLookup.undef

/-- ExpenseList's config helper (ExpenseList.jsx line 87), the value of
statusConfig[status] || statusConfig.pending: the || takes the pending entry
only when the lookup is falsy (undefined); a truthy value inherited from
Object.prototype is kept as-is. -/
def expenseListSc (status : String) : JSLookup StatusConfig :=
match statusConfigLookup status with
| JSLookup.undef => JSLookup.config pendingStatusConfig
| v => v

/-- Rendering of an expense row succeeds only when sc is an actual config
object: otherwise sc.icon is undefined and the Icon element throws at
render. -/
def expenseListRenderOk (status : String) : Bool :=
match expenseListSc status with
| JSLookup.config _ => true
| _ => false

/-- The render condition of the Raise Exception / dispute panel
(ExpenseList.jsx line 254). -/
def disputeOffered (status : String) : Bool :=
status == "rejected" || status == "flagged"

/-- Outcome of ExpenseList.handleDispute: either an alert with no API call, or
a disputeExpense call carrying the free-text reason. -/
inductive DisputeAction where
| alertMsg (msg : String) : DisputeAction
| call (reason : String) : DisputeAction
deriving DecidableEq

/-- ExpenseList.handleDispute (ExpenseList.jsx lines 69-85): a blank or
whitespace-only dispute text alerts and returns before the API call. -/
def handleDispute (disputeText : String) : DisputeAction :=
if jsTrim disputeText = "" then
  DisputeAction.alertMsg "Please provide a reason for your dispute."
else
  DisputeAction.call disputeText

/-! ## ApprovalChain (src/frontend/src/components/ApprovalChain.jsx) -/

/-- The step fields used by ApprovalChain's rendering and action logic. -/
structure ApprovalStepUI where
  step_order : ℕ
  approver_id : String
  approver_role : String
  status : String
deriving DecidableEq

/-- The pendingStep selection of ApprovalChain's action panel (ApprovalChain.jsx
lines 130-136): an admin takes the first step with status pending, a non-admin
viewer the first pending step bound to currentApproverId, and a falsy
currentApproverId selects nothing.  The panel is rendered iff the result is
some step. -/
def findActionStep (isAdmin : Bool) (currentApproverId : Option String)
    (steps : List ApprovalStepUI) : Option ApprovalStepUI :=
if isAdmin then
  steps.find? (fun s => s.status == "pending")
else
  match currentApproverId with
  | some cid => steps.find? (fun s => s.approver_id == cid && s.status == "pending")
  | none => none

/-- A config entry of ApprovalChain's stepStatusConfig object. -/
structure StepConfig where
  icon : String
  color : String
  bg : String
  ring : String
  label : String
deriving DecidableEq

/-- The waiting entry of stepStatusConfig. -/
def waitingConfig : StepConfig :=
⟨"Clock", "text-slate-500", "bg-slate-500/10", "ring-slate-500/20", "Waiting"⟩

/-- ApprovalChain's stepStatusConfig object (ApprovalChain.jsx lines 5-12)
under JavaScript bracket lookup: own keys first, then the keys inherited from
Object.prototype, and undefined only for keys on neither. -/
def stepStatusConfigLookup (status : String) : JSLookup StepConfig :=
if status = "pending" then JSLookup.config ⟨"Clock", "text-yellow-400", "bg-yellow-500/10", "ring-yellow-500/30", "Pending"⟩
else if status = "waiting" then JSLookup.config waitingConfig
else if status = "approved" then JSLookup.config ⟨"CheckCircle", "text-green-400", "bg-green-500/10", "ring-green-500/30", "Approved"⟩
else if status = "rejected" then JSLookup.config ⟨"XCircle", "text-red-400", "bg-red-500/10", "ring-red-500/30", "Rejected"⟩
else if status = "escalated" then JSLookup.config ⟨"ArrowUpCircle", "text-purple-400", "bg-purple-500/10", "ring-purple-500/30", "Escalated"⟩
else if status = "skipped" then JSLookup.config ⟨"SkipForward", "text-slate-500", "bg-slate-500/10", "ring-slate-500/20", "Skipped"⟩
else if status ∈ objectPrototypeKeys then JSLookup.inherited
else JSLookup.undef

/-- ApprovalChain's per-step sc (ApprovalChain.jsx lines 106 and 189), the
value of stepStatusConfig[step.status] || stepStatusConfig.waiting: the ||
takes the waiting entry only when the lookup is falsy (undefined); a truthy
value inherited from Object.prototype is kept as-is. -/
def stepSc (status : String) : JSLookup StepConfig :=
match stepStatusConfigLookup status with
| JSLookup.undef => JSLookup.config waitingConfig
| v => v

/-- Rendering of a chain step succeeds only when sc is an actual config
object: otherwise sc.icon is undefined and the Icon element throws at
render. -/
def stepRenderOk (status : String) : Bool :=
match stepSc status with
| JSLookup.config _ => true
| _ => false

/-! ## ApprovalRulesManager (src/frontend/src/components/ApprovalRulesManager.jsx) -/

/-- The routing-rule form state.  Every field filled from an input holds a
string: emptyRule initialises the amount fields to the empty string, onChange
stores e.target.value, and handleEdit stores String(rule.amount_min). -/
structure RuleForm where
  name : String
  description : String
  category : String
  department : String
  amount_min : String
  amount_max : String
  required_approvers : List String
  approval_type : String
  priority : Int
deriving DecidableEq

/-- The payload sent to createApprovalRule / updateApprovalRule. -/
structure RulePayload where
  name : String
  description : String
  category : Option String
  department : Option String
  amount_min : Option JSNum
  amount_max : Option JSNum
  required_approvers : List String
  approval_type : String
  priority : Int
deriving DecidableEq

/-- Outcome of ApprovalRulesManager.handleSave: either an alert with no API
call, or an API call with the built payload. -/
inductive SaveAction where
| alertMsg (msg : String) : SaveAction
| apiCall (payload : RulePayload) : SaveAction
deriving DecidableEq

/-- The payload object literal built by handleSave (ApprovalRulesManager.jsx
lines 77-83): a falsy category / department / amount field becomes null, a
truthy amount field goes through parseFloat. -/
def buildRulePayload (form : RuleForm) : RulePayload :=
{ name := form.name
  description := form.description
  category := if strTruthy form.category then some form.category else none
  department := if strTruthy form.department then some form.department else none
  amount_min := if strTruthy form.amount_min then some (parseFloatJS form.amount_min) else none
  amount_max := if strTruthy form.amount_max then some (parseFloatJS form.amount_max) else none
  required_approvers := form.required_approvers
  approval_type := form.approval_type
  priority := form.priority }

/-- ApprovalRulesManager.handleSave (ApprovalRulesManager.jsx lines 71-89):
a blank name or empty approver list alerts and returns; otherwise the built
payload is sent to createApprovalRule / updateApprovalRule. -/
def handleSave (form : RuleForm) : SaveAction :=
if jsTrim form.name = "" ∨ form.required_approvers.length = 0 then
  SaveAction.alertMsg "Rule name and at least one approver are required"
else
  SaveAction.apiCall (buildRulePayload form)

/-- The render condition of the remove-approver button
(ApprovalRulesManager.jsx line 286): shown only while more than one approver
remains in the chain. -/
def removeApproverOffered (form : RuleForm) : Bool :=
decide (1 < form.required_approvers.length)

/-! ## Decision Engine (spec section 4.3) -/

/-- The Decision Engine's three-tier decision plus the flagged outcome. -/
inductive Decision where
| flagged : Decision
| rejected : Decision
| auto_approved : Decision
| manager_review : Decision
deriving DecidableEq

/-- The configured thresholds of the Decision Engine. -/
structure DecisionConfig where
  auto_approve_threshold : ℚ
  reject_threshold : ℚ
  max_auto_approve_amount : ℚ
deriving DecidableEq

/-- A scored expense as seen by the Decision Engine: its amount, the Risk
Model's risk score, and the Policy Checker's hard / soft violation outcome. -/
structure ScoredExpense where
  amount : ℚ
  risk_score : ℚ
  hard_violation : Bool
  soft_violation : Bool
deriving DecidableEq

/-- Modelled from the spec: the backend Decision Engine (spec section 4.3) is
not under src/ — only the React frontend is — so its decision rule is taken
from the spec's ordered checks: hard violation forces flagged; else risk_score
at or above the reject threshold rejects; else a risk_score at or below the
auto-approve threshold with an amount at or below the max auto-approve amount
and no soft violations auto-approves; every remaining case goes to manager
review.  All threshold comparisons are closed. -/
def decideExpense (cfg : DecisionConfig) (e : ScoredExpense) : Decision :=
if e.hard_violation then Decision.flagged
else if cfg.reject_threshold ≤ e.risk_score then Decision.rejected
else if e.risk_score ≤ cfg.auto_approve_threshold ∧ e.amount ≤ cfg.max_auto_approve_amount ∧ e.soft_violation = false then Decision.auto_approved
else Decision.manager_review

/-! ## Settlement Executor (spec section 4.6) -/

/-- The expense lifecycle states of spec section 4.3. -/
inductive ExpStatus where
| submitted : ExpStatus
| auto_approved : ExpStatus
| manager_review : ExpStatus
| approved : ExpStatus
| rejected : ExpStatus
| flagged : ExpStatus
| disputed : ExpStatus
| paid : ExpStatus
deriving DecidableEq

/-- The per-expense state the Settlement Executor acts on: lifecycle status,
the number of ledger transfers performed so far, and the persisted settlement
reference (present iff the expense has been paid). -/
structure SettleState where
  status : ExpStatus
  transfers : ℕ
  tx_reference : Option String
deriving DecidableEq

/-- Result of a settle invocation: a completed settlement with the updated
expense state, or a no-op rejection leaving the state untouched. -/
inductive SettleOutcome where
| settled (st : SettleState) : SettleOutcome
| noop (st : SettleState) : SettleOutcome
deriving DecidableEq

/-- Modelled from the spec: the backend Settlement Executor (spec section 4.6)
is not under src/.  settle invokes the ledger transfer only from a state in
approved or auto_approved that has no settlement reference yet, moving the
expense to paid with the confirmed reference and one more ledger transfer;
any other invocation — in particular a second settle after a success — is a
no-op rejection that leaves the authoritative state unchanged. -/
def settle (st : SettleState) (txRef : String) : SettleOutcome :=
if (st.status = ExpStatus.approved ∨ st.status = ExpStatus.auto_approved) ∧ st.tx_reference = none then
  SettleOutcome.settled { status := ExpStatus.paid, transfers := st.transfers + 1, tx_reference := some txRef }
else
  SettleOutcome.noop st

/-! ## Claim theorems -/

/-- Claim C1: the Decision Engine's decision follows the spec's total ordering
of checks — flagged exactly on a hard violation; otherwise rejected exactly
when risk_score is at least the reject threshold; otherwise auto-approved
exactly when risk_score is at most the auto-approve threshold, the amount is
at most the max auto-approve amount, and there are no soft violations; manager
review in every remaining case.  All threshold comparisons are closed, and
since decideExpense is a total function into the four-valued Decision type the
four characterisations below are mutually exclusive and exhaustive, so exactly
one outcome is produced. -/
theorem claim_C1_decision_rule (cfg : DecisionConfig) (e : ScoredExpense) :
    (decideExpense cfg e = Decision.flagged ↔ e.hard_violation = true)
  ∧ (decideExpense cfg e = Decision.rejected ↔
      e.hard_violation = false ∧ cfg.reject_threshold ≤ e.risk_score)
  ∧ (decideExpense cfg e = Decision.auto_approved ↔
      e.hard_violation = false ∧ e.risk_score < cfg.reject_threshold ∧
      e.risk_score ≤ cfg.auto_approve_threshold ∧ e.amount ≤ cfg.max_auto_approve_amount ∧
      e.soft_violation = false)
  ∧ (decideExpense cfg e = Decision.manager_review ↔
      e.hard_violation = false ∧ e.risk_score < cfg.reject_threshold ∧
      ¬(e.risk_score ≤ cfg.auto_approve_threshold ∧ e.amount ≤ cfg.max_auto_approve_amount ∧
        e.soft_violation = false)) := by
  unfold decideExpense
  split_ifs with h1 h2 h3 <;> simp_all [not_le]

/-- Witness for claim C1 at the spec's Scenario A figures: risk 0.1 against
auto-approve threshold 0.3, reject threshold 0.7, amount 45 against max 500. -/
theorem claim_C1_witness :
    decideExpense ⟨3/10, 7/10, 500⟩ ⟨45, 1/10, false, false⟩ = Decision.auto_approved := by
  exact (claim_C1_decision_rule ⟨3/10, 7/10, 500⟩ ⟨45, 1/10, false, false⟩).2.2.1.mpr
    (by norm_num)

/-- Claim C2: settlement is at-most-once per expense — a successful settle
can only have started from approved or auto_approved, performs exactly one
more ledger transfer, and any second settle on the resulting state is a no-op
that leaves the state (and its transfer count) unchanged. -/
theorem claim_C2_at_most_once (st st1 : SettleState) (r1 r2 : String)
    (h : settle st r1 = SettleOutcome.settled st1) :
    (st.status = ExpStatus.approved ∨ st.status = ExpStatus.auto_approved)
  ∧ st1.transfers = st.transfers + 1
  ∧ settle st1 r2 = SettleOutcome.noop st1 := by
  unfold settle at h
  split_ifs at h with hc
  · cases h
    exact ⟨hc.1, rfl, by simp [settle]⟩

/-- Witness for claim C2: a first settle from approved succeeds and the second
one is rejected as a no-op with the transfer count still 1. -/
theorem claim_C2_witness :
    settle ⟨ExpStatus.approved, 0, none⟩ "tx1" =
      SettleOutcome.settled ⟨ExpStatus.paid, 1, some "tx1"⟩
  ∧ settle ⟨ExpStatus.paid, 1, some "tx1"⟩ "tx2" =
      SettleOutcome.noop ⟨ExpStatus.paid, 1, some "tx1"⟩ := by
  have h := claim_C2_at_most_once ⟨ExpStatus.approved, 0, none⟩
    ⟨ExpStatus.paid, 1, some "tx1"⟩ "tx1" "tx2" (by rfl)
  exact ⟨by rfl, h.2.2⟩

/-- Claim C3: whenever the amount field parses (via parseFloat) to NaN, zero,
or a negative number, handleSubmit produces the validation error result and
never the submit action, so the invalid amount does not reach submitExpense. -/
theorem claim_C3_amount_validation (s : String)
    (h : parseFloatJS s = JSNum.nan ∨ parseFloatJS s = JSNum.num 0 ∨
         ∃ q : ℚ, q < 0 ∧ parseFloatJS s = JSNum.num q) :
    handleSubmit s = SubmitAction.invalidAmount "Please enter a valid amount greater than 0" := by
  rcases h with h | h | ⟨q, hq, h⟩
  · simp [handleSubmit, h, JSNum.truthy, JSNum.le, JSNum.isNaN]
  · simp [handleSubmit, h, JSNum.truthy, JSNum.le, JSNum.isNaN]
  · simp [handleSubmit, h, JSNum.truthy, JSNum.le, JSNum.isNaN, le_of_lt hq]

/-- Witness for claim C3: the empty amount field parses to NaN and is rejected
synchronously. -/
theorem claim_C3_witness :
    parseFloatJS "" = JSNum.nan ∧
    handleSubmit "" = SubmitAction.invalidAmount "Please enter a valid amount greater than 0" :=
  ⟨by rfl, claim_C3_amount_validation "" (Or.inl (by rfl))⟩

/-- Claim C4: ApprovalChain offers action buttons for at most one step (the
selection returns an Option, so the panel is rendered for at most one step),
and only for a step with status pending: an admin viewer gets the first
pending step of the chain, a non-admin viewer only a pending step bound to
currentApproverId, and when no such step exists no action panel is rendered. -/
theorem claim_C4_single_action_step (isAdmin : Bool) (cid : Option String)
    (steps : List ApprovalStepUI) :
    (∀ s, findActionStep isAdmin cid steps = some s →
        s.status = "pending"
      ∧ (isAdmin = false → ∃ c, cid = some c ∧ s.approver_id = c)
      ∧ (isAdmin = true → ∃ l1 l2, steps = l1 ++ s :: l2 ∧ ∀ t ∈ l1, t.status ≠ "pending"))
  ∧ ((∀ s ∈ steps, s.status ≠ "pending") → findActionStep isAdmin cid steps = none) := by
  cases isAdmin with
  | true =>
    constructor
    · intro s hs
      simp only [findActionStep, if_true] at hs
      obtain ⟨hp, l1, l2, hsplit, hall⟩ := List.find?_eq_some.mp hs
      refine ⟨by simpa using hp, by simp, fun _ => ⟨l1, l2, hsplit, fun t ht => ?_⟩⟩
      simpa using hall t ht
    · intro hnone
      simp only [findActionStep, if_true]
      exact List.find?_eq_none.mpr (by simpa using hnone)
  | false =>
    cases cid with
    | none =>
      exact ⟨fun s hs => by simp [findActionStep] at hs, fun _ => rfl⟩
    | some c =>
      constructor
      · intro s hs
        simp only [findActionStep, if_false] at hs
        have hp := List.find?_some hs
        simp only [Bool.and_eq_true, beq_iff_eq] at hp
        exact ⟨hp.2, fun _ => ⟨c, rfl, hp.1⟩, by simp⟩
      · intro hnone
        simp only [findActionStep, if_false]
        refine List.find?_eq_none.mpr fun x hx => ?_
        simp [hnone x hx]

/-- Witness for claim C4: an admin viewer on a one-step chain whose single step
is pending gets exactly that step, and it has status pending. -/
theorem claim_C4_witness :
    findActionStep true none [⟨1, "emp1", "finance", "pending"⟩] =
      some ⟨1, "emp1", "finance", "pending"⟩
  ∧ (⟨1, "emp1", "finance", "pending"⟩ : ApprovalStepUI).status = "pending" := by
  have h := (claim_C4_single_action_step true none [⟨1, "emp1", "finance", "pending"⟩]).1
    ⟨1, "emp1", "finance", "pending"⟩ (by rfl)
  exact ⟨by rfl, h.1⟩

/-- Claim C5: the dispute panel is rendered exactly for a rejected or flagged
expense, and handleDispute on blank or whitespace-only text alerts and makes
no API call; disputeExpense is only invoked with a reason whose trim is
non-empty (the submitted free text itself). -/
theorem claim_C5_dispute_guard (status disputeText : String) :
    (disputeOffered status = true ↔ status = "rejected" ∨ status = "flagged")
  ∧ (jsTrim disputeText = "" →
      handleDispute disputeText =
        DisputeAction.alertMsg "Please provide a reason for your dispute.")
  ∧ (∀ r, handleDispute disputeText = DisputeAction.call r →
      jsTrim r ≠ "" ∧ r = disputeText) := by
  refine ⟨by simp [disputeOffered], fun h => by simp [handleDispute, h], fun r hr => ?_⟩
  unfold handleDispute at hr
  split_ifs at hr with ht
  cases hr
  exact ⟨ht, rfl⟩

/-- Witness for claim C5: a rejected expense offers the dispute action, and a
whitespace-only dispute text is rejected with the alert. -/
theorem claim_C5_witness :
    disputeOffered "rejected" = true
  ∧ handleDispute "   " = DisputeAction.alertMsg "Please provide a reason for your dispute." := by
  have h := claim_C5_dispute_guard "rejected" "   "
  exact ⟨h.1.mpr (Or.inl rfl), h.2.1 (by decide)⟩

/-- Claim C6: every routing-rule payload that handleSave actually transmits
maps an unset filter to null — an empty-string category or department and an
empty amount_min or amount_max field all become none in the payload sent to
createApprovalRule / updateApprovalRule. -/
theorem claim_C6_null_unbounded (form : RuleForm) (p : RulePayload)
    (h : handleSave form = SaveAction.apiCall p) :
    (form.category = "" → p.category = none)
  ∧ (form.department = "" → p.department = none)
  ∧ (form.amount_min = "" → p.amount_min = none)
  ∧ (form.amount_max = "" → p.amount_max = none) := by
  unfold handleSave at h
  split_ifs at h with hg
  cases h
  refine ⟨?_, ?_, ?_, ?_⟩ <;> intro he <;> simp [buildRulePayload, strTruthy, he] <;> decide

/-- Witness for claim C6: a rule with every filter left empty is transmitted
with null category, department and amount bounds. -/
theorem claim_C6_witness :
    handleSave ⟨"Travel rule", "", "", "", "", "", ["direct_manager"], "sequential", 100⟩ =
      SaveAction.apiCall ⟨"Travel rule", "", none, none, none, none, ["direct_manager"], "sequential", 100⟩
  ∧ (⟨"Travel rule", "", none, none, none, none, ["direct_manager"], "sequential", 100⟩ : RulePayload).amount_min = none := by
  have h := claim_C6_null_unbounded
    ⟨"Travel rule", "", "", "", "", "", ["direct_manager"], "sequential", 100⟩
    ⟨"Travel rule", "", none, none, none, none, ["direct_manager"], "sequential", 100⟩
    (by rfl)
  exact ⟨by rfl, h.2.2.1 rfl⟩

/-- Claim C7: handleSave never calls createApprovalRule / updateApprovalRule
with an empty approver list or a blank rule name — either condition alerts and
returns with no API call, every transmitted payload carries the form's
non-empty approver list and a non-blank name, and the remove-approver button
is offered exactly while more than one approver remains. -/
theorem claim_C7_save_validation (form : RuleForm) :
    ((jsTrim form.name = "" ∨ form.required_approvers = []) →
      handleSave form = SaveAction.alertMsg "Rule name and at least one approver are required")
  ∧ (∀ p, handleSave form = SaveAction.apiCall p →
      jsTrim form.name ≠ "" ∧ p.required_approvers = form.required_approvers ∧
      p.required_approvers ≠ [])
  ∧ (removeApproverOffered form = true ↔ 1 < form.required_approvers.length) := by
  refine ⟨fun h => ?_, fun p hp => ?_, by simp [removeApproverOffered]⟩
  · rcases h with h | h <;> simp [handleSave, h]
  · unfold handleSave at hp
    split_ifs at hp with hg
    cases hp
    push_neg at hg
    exact ⟨hg.1, rfl, by simpa [buildRulePayload, ← List.length_eq_zero] using hg.2⟩

/-- Witness for claim C7: a blank (whitespace-only) rule name alerts with no
API call, and a one-approver chain does not offer the remove button. -/
theorem claim_C7_witness :
    handleSave ⟨"  ", "", "", "", "", "", ["direct_manager"], "sequential", 100⟩ =
      SaveAction.alertMsg "Rule name and at least one approver are required"
  ∧ removeApproverOffered ⟨"  ", "", "", "", "", "", ["direct_manager"], "sequential", 100⟩ = false := by
  have h := claim_C7_save_validation ⟨"  ", "", "", "", "", "", ["direct_manager"], "sequential", 100⟩
  refine ⟨h.1 (Or.inl (by decide)), ?_⟩
  have h2 := h.2.2
  simp only [List.length_cons, List.length_nil] at h2
  simp [removeApproverOffered]

/-- The string "0" parses to the number 0 under the parseFloat model. -/
theorem parseFloatJS_zero : parseFloatJS "0" = JSNum.num 0 := by
  have h : parseFloatJS "0" =
      JSNum.num ((digitsToNat ['0'] : ℚ) + (digitsToNat ([] : List Char) : ℚ) / 10 ^ (0 : ℕ)) := rfl
  rw [h]
  norm_num [digitsToNat]
  decide

/-- Counterexample to claim C8 as stated: the amount fields of the form always
hold strings, and the string "0" is truthy in JavaScript, so a rule form with
amount_min entered as 0 is transmitted with amount_min = parseFloat("0") = 0,
not null. -/
theorem claim_C8_counterexample :
    handleSave ⟨"Zero min", "", "", "", "0", "", ["direct_manager"], "sequential", 100⟩ =
      SaveAction.apiCall ⟨"Zero min", "", none, none, some (JSNum.num 0), none, ["direct_manager"], "sequential", 100⟩
  ∧ some (JSNum.num 0) ≠ (none : Option JSNum) := by
  constructor
  · unfold handleSave
    rw [if_neg (by decide)]
    simp [buildRulePayload, strTruthy, parseFloatJS_zero]
    decide
  · simp

/-- Claim C8 (amended): handleSave tests the amount fields by JavaScript
truthiness of the form's string value, and among strings only the empty string
is falsy, so the truthiness test coincides with an emptiness test: an
amount_min or amount_max field is transmitted as null exactly when it is the
empty string, and a field entered as "0" is transmitted as the number 0 — a
zero lower bound remains distinguishable from no lower bound. -/
theorem claim_C8_amended (form : RuleForm) (p : RulePayload)
    (h : handleSave form = SaveAction.apiCall p) :
    (p.amount_min = none ↔ form.amount_min = "")
  ∧ (p.amount_max = none ↔ form.amount_max = "")
  ∧ (form.amount_min = "0" → p.amount_min = some (JSNum.num 0)) := by
  unfold handleSave at h
  split_ifs at h with hg
  cases h
  refine ⟨?_, ?_, fun he => ?_⟩
  · constructor
    · intro hmin
      by_contra hne
      simp [buildRulePayload, strTruthy, String.isEmpty_iff, hne] at hmin
    · intro he; simp [buildRulePayload, strTruthy, he] ; decide
  · constructor
    · intro hmax
      by_contra hne
      simp [buildRulePayload, strTruthy, String.isEmpty_iff, hne] at hmax
    · intro he; simp [buildRulePayload, strTruthy, he] ; decide
  · simp [buildRulePayload, strTruthy, he]
    exact ⟨by decide, parseFloatJS_zero⟩

/-- Witness for the amended claim C8 at a concrete saved rule: empty
amount_max maps to null while amount_min "0" maps to the number 0. -/
theorem claim_C8_witness :
    (⟨"Zero min", "", none, none, some (JSNum.num 0), none, ["direct_manager"], "sequential", 100⟩ : RulePayload).amount_max = none
  ∧ (⟨"Zero min", "", none, none, some (JSNum.num 0), none, ["direct_manager"], "sequential", 100⟩ : RulePayload).amount_min = some (JSNum.num 0) := by
  have h := claim_C8_amended
    ⟨"Zero min", "", "", "", "0", "", ["direct_manager"], "sequential", 100⟩
    ⟨"Zero min", "", none, none, some (JSNum.num 0), none, ["direct_manager"], "sequential", 100⟩
    (by unfold handleSave
        rw [if_neg (by decide)]
        simp [buildRulePayload, strTruthy, parseFloatJS_zero]
        decide)
  exact ⟨h.2.1.mpr rfl, h.2.2 rfl⟩

/-- Claim C9: for every selected receipt file, handleReceiptSelect marks
receipt_attached true whether the upload succeeds or fails, and a failed
upload leaves the stored receipt_file_path untouched, so an upload failure can
never cause a submission to be treated as missing a receipt. -/
theorem claim_C9_receipt_attached (f : ReceiptFormState) :
    (∀ res, (handleReceiptSelect f res).receipt_attached = true)
  ∧ (handleReceiptSelect f UploadOutcome.failed).receipt_file_path = f.receipt_file_path := by
  exact ⟨fun res => by cases res <;> rfl, rfl⟩

/-- Counterexample to claim C10 as stated: the status string "constructor" is
outside the spec's state set, yet bracket lookup finds Object.prototype's
truthy constructor property, so the || fallback does not apply — ExpenseList
does not fall back to the pending configuration, ApprovalChain does not fall
back to the waiting configuration, and in both the Icon element is undefined
and rendering throws. -/
theorem claim_C10_counterexample :
    expenseListSc "constructor" = JSLookup.inherited
  ∧ expenseListSc "constructor" ≠ JSLookup.config pendingStatusConfig
  ∧ expenseListRenderOk "constructor" = false
  ∧ stepSc "constructor" = JSLookup.inherited
  ∧ stepSc "constructor" ≠ JSLookup.config waitingConfig
  ∧ stepRenderOk "constructor" = false := by
  exact ⟨by decide, by decide, by decide, by decide, by decide, by decide⟩

/-- Claim C10 (amended): ExpenseForm's getStatusConfig is a genuine switch and
is total — every status outside its cases gets the default Processing
configuration.  ExpenseList and ApprovalChain fall back to the pending
(respectively waiting) configuration exactly for the statuses outside both
their config objects' own keys and the keys inherited from Object.prototype;
for a status naming an inherited Object.prototype property the truthy
inherited value masks the || fallback and rendering throws on the undefined
icon, so status rendering in those two components is not total over arbitrary
strings. -/
theorem claim_C10_amended (status : String) :
    (status ∉ (["paid", "auto_approved", "approved", "manager_review", "pending",
        "rejected", "flagged", "disputed"] : List String) →
      status ∉ objectPrototypeKeys →
      expenseListSc status = JSLookup.config pendingStatusConfig ∧
      expenseListRenderOk status = true)
  ∧ (status ∉ (["pending", "waiting", "approved", "rejected", "escalated",
        "skipped"] : List String) →
      status ∉ objectPrototypeKeys →
      stepSc status = JSLookup.config waitingConfig ∧
      stepRenderOk status = true)
  ∧ (status ∈ objectPrototypeKeys →
      expenseListRenderOk status = false ∧ stepRenderOk status = false)
  ∧ (status ∉ (["paid", "auto_approved", "manager_review", "rejected",
        "flagged"] : List String) →
      getStatusConfig status =
        ⟨"Bot", "text-blue-400", "bg-blue-500/10 border-blue-500/30", "Processing...", ""⟩) := by
  refine ⟨fun h hp => ?_, fun h hp => ?_, fun hp => ?_, fun h => ?_⟩
  · simp only [List.mem_cons, List.not_mem_nil, not_or] at h
    have hl : statusConfigLookup status = JSLookup.undef := by
      unfold statusConfigLookup
      split_ifs <;> simp_all
    constructor <;> simp [expenseListSc, expenseListRenderOk, hl]
  · simp only [List.mem_cons, List.not_mem_nil, not_or] at h
    have hl : stepStatusConfigLookup status = JSLookup.undef := by
      unfold stepStatusConfigLookup
      split_ifs <;> simp_all
    constructor <;> simp [stepSc, stepRenderOk, hl]
  · fin_cases hp <;> exact ⟨by decide, by decide⟩
  · simp only [List.mem_cons, List.not_mem_nil, not_or] at h
    unfold getStatusConfig
    split_ifs <;> simp_all

/-- Witness for the amended claim C10: an unknown status string outside the
prototype chain renders with the fallback configurations in all three
components, while the inherited key toString makes ExpenseList's and
ApprovalChain's rendering throw. -/
theorem claim_C10_witness :
    expenseListSc "totally_unknown" = JSLookup.config pendingStatusConfig
  ∧ stepSc "totally_unknown" = JSLookup.config waitingConfig
  ∧ getStatusConfig "totally_unknown" =
      ⟨"Bot", "text-blue-400", "bg-blue-500/10 border-blue-500/30", "Processing...", ""⟩
  ∧ expenseListRenderOk "toString" = false
  ∧ stepRenderOk "toString" = false := by
  have h := claim_C10_amended "totally_unknown"
  have h2 := claim_C10_amended "toString"
  exact ⟨(h.1 (by decide) (by decide)).1, (h.2.1 (by decide) (by decide)).1,
    h.2.2.2 (by decide), (h2.2.2.1 (by decide)).1, (h2.2.2.1 (by decide)).2⟩

end TempoExpense
